import Mathlib

/-!
Verification of the orchestration logic of `scripts/parallel_deblur.py`
(the `workflow` click command of the deblur parallel pipeline).

The script is embedded shallowly:

* a filesystem is a set of directories plus a map from paths to file
  contents (`FS`); paths are lists of components;
* the external collaborators the script calls —
  `split_sequence_file_on_sample_ids_to_files` (qiime), the
  `ParallelDeblur` runner and `float` parsing — are opaque function
  parameters collected in `Ext`, with exactly the argument lists the
  call sites pass;
* raising a Python exception is `Except.error`; the module-level name
  table of the script is the list `moduleNames`, so that calling an
  unbound name is a `NameError`.

The `workflow` function below mirrors the body of the Python `workflow`
command line by line (lines 112-143 of the source).
-/

namespace ParallelDeblurScript

/-- A filesystem path, as its list of components. -/
abbrev Path := List String

/-- Abstract filesystem: existing directories, regular files with their
contents, and the process working directory (used by `isfile` on bare
names). -/
structure FS where
  dirs : List Path
  files : List (Path × String)
  cwd : Path
deriving Repr, DecidableEq

/-- Content of the regular file at `p`, if one exists. -/
def FS.lookupFile (fs : FS) (p : Path) : Option String :=
  (fs.files.find? (fun e => e.1 == p)).map (fun e => e.2)

/-- `os.path.exists`: true for regular files and for directories. -/
def FS.pathExists (fs : FS) (p : Path) : Bool :=
  fs.dirs.contains p || (fs.lookupFile p).isSome

/-- `os.path.isdir`. -/
def FS.isDir (fs : FS) (p : Path) : Bool :=
  fs.dirs.contains p

/-- The entries (files and subdirectories) directly inside directory `d`. -/
def FS.entriesIn (fs : FS) (d : Path) : List Path :=
  (fs.files.map Prod.fst ++ fs.dirs).filter (fun p => !p.isEmpty && p.dropLast == d)

/-- Basename of an entry. -/
def base (p : Path) : String :=
  p.getLastD ""

/-- `glob('%s/*' % d)`: the entries directly under `d`; the `*` wildcard
does not match names starting with a dot. -/
def globStar (fs : FS) (d : Path) : List Path :=
  (fs.entriesIn d).filter (fun p => !(base p).startsWith ".")

/-- `glob('%s/*.biom' % d)`: the entries directly under `d` whose name ends
in `.biom`; `*` does not match a leading dot. -/
def globBiom (fs : FS) (d : Path) : List Path :=
  (fs.entriesIn d).filter (fun p => !(base p).startsWith "." && (base p).endsWith ".biom")

/-- `os.listdir d`: the names of the entries directly inside `d`. -/
def FS.listdirNames (fs : FS) (d : Path) : List String :=
  (fs.entriesIn d).map base

/-- Python exceptions the embedded script can raise. -/
inductive PyErr where
  /-- `NameError`: the given name is not bound. -/
  | nameErr (n : String)
  /-- `FileNotFoundError` from `open` or `os.listdir`. -/
  | fileNotFound (p : Path)
  /-- `NotADirectoryError` from `os.listdir`. -/
  | notADir (p : Path)
  /-- `ValueError` from `float()`. -/
  | valueErr
  /-- An error raised inside an external collaborator. -/
  | extErr (msg : String)
deriving Repr, DecidableEq

/-- The command-line options of the `workflow` command (lines 35-110).
Floats are modelled as rationals. -/
structure Args where
  seqs_fp : Path
  output_fp : Path
  file_type : String
  read_error : Rat
  mean_error : Option Rat
  error_dist : Option String
  indel_prob : Rat
  indel_max : Int
  trim_length : Int
  min_size : Int
  ref_fp : List Path
  ref_db_fp : List Path
  negate : Bool
  threads : Int
  delim : String
  buffer_size : Int
  jobs_to_start : Int
  retain_temp_files : Bool
  suppress_polling : Bool
deriving Repr, DecidableEq

/-- A value stored in the `params` dict (lines 126-130). -/
inductive PVal where
  | paths (ps : List Path)
  | int (i : Int)
deriving Repr, DecidableEq

/-- The `params` dict built at lines 126-130: it receives exactly the keys
`ref_db_fp`, `ref_fp` and `jobs_to_start`, in that insertion order. -/
def buildParams (a : Args) : List (String × PVal) :=
  [("ref_db_fp", PVal.paths a.ref_db_fp),
   ("ref_fp", PVal.paths a.ref_fp),
   ("jobs_to_start", PVal.int a.jobs_to_start)]

/-- The constructor arguments of `ParallelDeblur` (lines 133-136). -/
structure RunnerInit where
  jobs_to_start : Int
  retain_temp_files : Bool
  suppress_polling : Bool
deriving Repr, DecidableEq

/-- The call arguments of the `parallel_runner` object (lines 137-140). -/
structure RunnerCall where
  input_fp : List Path
  output_dir : Path
  params : List (String × PVal)
deriving Repr, DecidableEq

/-- The external collaborators imported by the script, opaque to this
embedding; each field has exactly the parameter list the script's call
site supplies. -/
structure Ext where
  /-- `float(s)`. -/
  pyFloat : String → Except PyErr Rat
  /-- `qiime.util.split_sequence_file_on_sample_ids_to_files(seqs_f,
  file_type, out_dir_split, buffer_size)` (lines 120-124): receives the
  opened file's content, the file type, the output directory and the
  buffer size — and nothing else. -/
  splitOnSampleIds : String → String → Path → Int → FS → Except PyErr FS
  /-- The `ParallelDeblur` object: constructed with a `RunnerInit`, then
  called with a `RunnerCall`; its effect on the filesystem is opaque. -/
  parallelDeblur : RunnerInit → RunnerCall → FS → Except PyErr FS

/-- Python truthiness of an optional string: `None` and `''` are falsy. -/
def truthyStr : Option String → Bool
  | none => false
  | some s => !s.isEmpty

/-- Lines 113-114: `error_dist = list(map(float, error_dist.split(',')))`,
run only when `error_dist` is truthy; the result is never used afterwards. -/
def parseErrorDist (ext : Ext) (s : String) : Except PyErr (List Rat) :=
  (s.splitOn ",").mapM ext.pyFloat

/-- Line 115: `out_dir = dirname(output_fp)`. -/
def out_dir (a : Args) : Path :=
  a.output_fp.dropLast

/-- Line 117: `out_dir_split = join(out_dir, "split")`. -/
def out_dir_split (a : Args) : Path :=
  out_dir a ++ ["split"]

/-- Lines 118-124: split the demultiplexed input on sample ids unless
`out_dir_split` already exists. The guard is `not exists(out_dir_split)` —
existence only, nothing about the directory being non-empty. Note that
`delim` is not among the arguments passed to the split function. -/
def splitStep (ext : Ext) (a : Args) (fs : FS) : Except PyErr FS :=
  if fs.pathExists (out_dir_split a) then Except.ok fs
  else
    match fs.lookupFile a.seqs_fp with
    | none => Except.error (PyErr.fileNotFound a.seqs_fp)
    | some content =>
        ext.splitOnSampleIds content a.file_type (out_dir_split a) a.buffer_size fs

/-- Line 132: `samples_fp = [f for f in listdir(out_dir_split) if
isfile(f)]` — `listdir` raises when `out_dir_split` is not a directory,
and `isfile(f)` tests the bare name relative to the working directory.
The resulting list is never used. -/
def samplesStep (fs : FS) (a : Args) : Except PyErr (List String) :=
  if fs.isDir (out_dir_split a) then
    Except.ok ((fs.listdirNames (out_dir_split a)).filter
      (fun f => (fs.lookupFile (fs.cwd ++ [f])).isSome))
  else if (fs.lookupFile (out_dir_split a)).isSome then
    Except.error (PyErr.notADir (out_dir_split a))
  else
    Except.error (PyErr.fileNotFound (out_dir_split a))

/-- The arguments the `parallel_runner` call receives (lines 137-140):
`input_fp` is `glob('%s/*' % out_dir_split)` over the filesystem after
the split step, `output_dir` is `out_dir`, `params` is the dict of lines
126-130. -/
def runnerCallOf (a : Args) (fs1 : FS) : RunnerCall :=
  ⟨globStar fs1 (out_dir_split a), out_dir a, buildParams a⟩

/-- Lines 112-140 of the `workflow` body: everything before the merge
step, returning the filesystem in force at line 141. -/
def preMerge (ext : Ext) (a : Args) (fs : FS) : Except PyErr FS :=
  let step0 : Except PyErr Unit :=
    if truthyStr a.error_dist then
      (parseErrorDist ext (a.error_dist.getD "")).map (fun _ => ())
    else Except.ok ()
  match step0 with
  | Except.error e => Except.error e
  | Except.ok _ =>
    match splitStep ext a fs with
    | Except.error e => Except.error e
    | Except.ok fs1 =>
      match samplesStep fs1 a with
      | Except.error e => Except.error e
      | Except.ok _ =>
          ext.parallelDeblur
            ⟨a.jobs_to_start, a.retain_temp_files, a.suppress_polling⟩
            (runnerCallOf a fs1) fs1

/-- The names bound at module level in `scripts/parallel_deblur.py`: the
imports of lines 11-26 and the two function definitions. Calling any
other non-builtin name raises `NameError`. -/
def moduleNames : List String :=
  ["click", "listdir", "dirname", "join", "isfile", "exists", "glob",
   "parse_fasta", "biom_open", "HAVE_H5PY",
   "split_sequence_file_on_sample_ids_to_files", "deblur",
   "launch_workflow", "trim_seqs", "dereplicate_seqs",
   "remove_artifacts_seqs", "multiple_sequence_alignment",
   "remove_chimeras_denovo_from_seqs", "generate_biom_table",
   "ParallelDeblur", "deblur_cmds", "workflow"]

/-- The whole `workflow` command (lines 107-143). After `preMerge`, line
142 computes `all_bioms = glob('%s/*.biom' % out_dir)` and line 143
evaluates `merge_otu_tables(output_fp, all_bioms)`: the name is looked up
among the module's bindings, and an unbound name raises `NameError`. -/
def workflow (ext : Ext) (a : Args) (fs : FS) : Except PyErr Unit :=
  match preMerge ext a fs with
  | Except.error e => Except.error e
  | Except.ok fs2 =>
      let all_bioms := globBiom fs2 (out_dir a)
      if moduleNames.contains "merge_otu_tables" then
        -- would call merge_otu_tables(output_fp, all_bioms); no binding exists
        Except.ok ()
      else
        let _ := all_bioms
        Except.error (PyErr.nameErr "merge_otu_tables")

/-- Process exit status of a click command run: zero when the command
returns normally, non-zero when it raises. -/
def exitCode (r : Except PyErr Unit) : Nat :=
  match r with
  | Except.ok _ => 0
  | Except.error _ => 1

/-! ## Dispatcher model

`deblur.parallel_deblur.ParallelDeblur` is code of this repository that is
not included under `src/` (the script only imports and calls it), so its
concurrency behaviour is modelled from the spec. -/

/-- State of one dispatched job handle. -/
inductive JState where
  | queued
  | running
  | succeeded
  | failed
deriving Repr, DecidableEq

/-- The number of handles currently in the Running state. -/
def runningCount (js : List JState) : Nat :=
  js.countP (fun s => s == JState.running)

/-- Modelled from the spec: the Dispatcher of `ParallelDeblur` (code not
under `src/`) submits jobs to at most `cap = jobs_to_start` parallel
slots: a Queued job may start only while fewer than `cap` jobs are
Running, and a Running job may finish as Succeeded or Failed; no other
transition exists and no ordering among Queued jobs is imposed. -/
inductive DStep (cap : Nat) : List JState → List JState → Prop where
  | start (js : List JState) (i : Nat) (h : js.get? i = some JState.queued)
      (hc : runningCount js < cap) :
      DStep cap js (js.set i JState.running)
  | finishOk (js : List JState) (i : Nat) (h : js.get? i = some JState.running) :
      DStep cap js (js.set i JState.succeeded)
  | finishBad (js : List JState) (i : Nat) (h : js.get? i = some JState.running) :
      DStep cap js (js.set i JState.failed)

/-- States reachable from `init` by dispatcher steps under capacity `cap`. -/
inductive Reach (cap : Nat) (init : List JState) : List JState → Prop where
  | refl : Reach cap init init
  | tail (a b : List JState) : Reach cap init a → DStep cap a b → Reach cap init b

/-! ## Merger model

`merge_otu_tables` is neither defined nor imported by the script (see the
NameError theorems below), so the Merger is modelled from the spec. -/

/-- A per-partition feature table: rows of (feature, sample, abundance). -/
structure Artifact where
  rows : List (String × String × Int)
deriving Repr, DecidableEq

/-- Modelled from the spec: the Merger (`merge_otu_tables`, absent from
the script) combines two feature tables into one whose feature set and
sample set are the unions of the inputs' and whose content keeps every
input row. -/
def mergeTables (A B : Artifact) : Artifact :=
  ⟨A.rows ++ B.rows⟩

/-- Modelled from the spec: merging a whole set of artifacts. -/
def mergeAll (ts : List Artifact) : Artifact :=
  ⟨(ts.map Artifact.rows).flatten⟩

/-- The abundance a table assigns to (feature, sample); absent cells
count zero. -/
def Artifact.content (t : Artifact) (f s : String) : Int :=
  ((t.rows.filter (fun r => r.1 == f && r.2.1 == s)).map (fun r => r.2.2)).sum

/-- The features a table mentions. -/
def Artifact.featureList (t : Artifact) : List String :=
  t.rows.map (fun r => r.1)

/-- The sample columns a table mentions. -/
def Artifact.sampleList (t : Artifact) : List String :=
  t.rows.map (fun r => r.2.1)

/-- Two artifacts have disjoint sample columns. -/
def disjointSamples (A B : Artifact) : Prop :=
  ∀ s ∈ A.sampleList, s ∉ B.sampleList

instance (A B : Artifact) : Decidable (disjointSamples A B) :=
  List.decidableBAll _ _

/-! ## Concrete fixtures for witnesses -/

/-- A trivial instantiation of the external collaborators: the split and
the parallel run leave the filesystem unchanged and succeed. -/
def exampleExt : Ext :=
  { pyFloat := fun _ => Except.ok 0
    splitOnSampleIds := fun _ _ _ _ fs => Except.ok fs
    parallelDeblur := fun _ _ fs => Except.ok fs }

/-- Example command-line arguments: output to out/table.biom. -/
def exampleArgs : Args :=
  { seqs_fp := ["seqs.fna"]
    output_fp := ["out", "table.biom"]
    file_type := "fasta"
    read_error := 1 / 20
    mean_error := none
    error_dist := none
    indel_prob := 1 / 100
    indel_max := 3
    trim_length := 100
    min_size := 2
    ref_fp := [["ref.fna"]]
    ref_db_fp := []
    negate := false
    threads := 1
    delim := "_"
    buffer_size := 500
    jobs_to_start := 1
    retain_temp_files := false
    suppress_polling := false }

/-- A filesystem where the split directory out/split already exists and
holds one partition file. -/
def exampleFS : FS :=
  { dirs := [["out"], ["out", "split"]]
    files := [(["seqs.fna"], ">S1_0 x"), (["out", "split", "S1.fasta"], ">S1_0 x")]
    cwd := [] }

/-- A filesystem where the split directory out/split exists but is empty. -/
def emptySplitFS : FS :=
  { dirs := [["out"], ["out", "split"]]
    files := [(["seqs.fna"], ">S1_0 x")]
    cwd := [] }

/-! ## Helper lemmas -/

/-- The module binds no name `merge_otu_tables`. -/
theorem merge_name_unbound : moduleNames.contains "merge_otu_tables" = false := by
  decide

/-- When everything before the merge step succeeds, the merge step's name
lookup fails and the command raises `NameError`. -/
theorem workflow_of_preMerge_ok (ext : Ext) (a : Args) (fs fs2 : FS)
    (h : preMerge ext a fs = Except.ok fs2) :
    workflow ext a fs = Except.error (PyErr.nameErr "merge_otu_tables") := by
  unfold workflow
  rw [h, merge_name_unbound]
  rfl

/-- An exception raised before the merge step propagates out of the
command. -/
theorem workflow_of_preMerge_error (ext : Ext) (a : Args) (fs : FS) (e : PyErr)
    (h : preMerge ext a fs = Except.error e) :
    workflow ext a fs = Except.error e := by
  unfold workflow
  rw [h]

/-- The split step is skipped as soon as the split directory exists. -/
theorem splitStep_skipped_of_isDir (ext : Ext) (a : Args) (fs : FS)
    (hd : fs.isDir (out_dir_split a) = true) :
    splitStep ext a fs = Except.ok fs := by
  have hex : fs.pathExists (out_dir_split a) = true := by
    unfold FS.pathExists
    unfold FS.isDir at hd
    rw [hd]
    rfl
  unfold splitStep
  rw [hex]
  rfl

/-! ## Claim theorems -/

/-- C1: every invocation of the workflow command that reaches the merge
step raises `NameError`, because `merge_otu_tables` is called at line 143
but is never defined in the file and never imported; consequently no
invocation of the workflow command completes successfully. -/
theorem workflow_never_completes :
    "merge_otu_tables" ∉ moduleNames ∧
    ∀ (ext : Ext) (a : Args) (fs : FS),
      (∀ fs2 : FS, preMerge ext a fs = Except.ok fs2 →
        workflow ext a fs = Except.error (PyErr.nameErr "merge_otu_tables")) ∧
      ∀ u : Unit, workflow ext a fs ≠ Except.ok u := by
  refine ⟨by decide, fun ext a fs => ⟨fun fs2 h => workflow_of_preMerge_ok ext a fs fs2 h, ?_⟩⟩
  intro u hok
  cases hp : preMerge ext a fs with
  | error e =>
      rw [workflow_of_preMerge_error ext a fs e hp] at hok
      exact Except.noConfusion hok
  | ok fs2 =>
      rw [workflow_of_preMerge_ok ext a fs fs2 hp] at hok
      exact Except.noConfusion hok

/-- Witness for C1: a concrete run in which everything before the merge
step succeeds still ends in `NameError`. -/
theorem workflow_never_completes_witness :
    workflow exampleExt exampleArgs exampleFS
      = Except.error (PyErr.nameErr "merge_otu_tables") :=
  (workflow_never_completes.2 exampleExt exampleArgs exampleFS).1 exampleFS (by rfl)

/-- C2 (code bug): with `suppress_polling` set to true the command still
proceeds into the merge step itself — the merge call at line 143 is not
gated on suppression, so the run does not return before attempting the
merge (it raises `NameError` there). -/
theorem suppress_polling_does_not_gate_merge :
    ∀ (ext : Ext) (a : Args) (fs fs2 : FS),
      preMerge ext { a with suppress_polling := true } fs = Except.ok fs2 →
      workflow ext { a with suppress_polling := true } fs
        = Except.error (PyErr.nameErr "merge_otu_tables") :=
  fun ext a fs fs2 h =>
    workflow_of_preMerge_ok ext { a with suppress_polling := true } fs fs2 h

/-- Witness for C2: a concrete suppressed-polling run that still reaches
and attempts the merge step. -/
theorem suppress_polling_does_not_gate_merge_witness :
    workflow exampleExt { exampleArgs with suppress_polling := true } exampleFS
      = Except.error (PyErr.nameErr "merge_otu_tables") :=
  suppress_polling_does_not_gate_merge exampleExt exampleArgs exampleFS exampleFS (by rfl)

/-- C9 (code bug): the command never exits with status zero — every run
raises, either before the merge step or at the `merge_otu_tables` name
lookup — so there is no successful run exiting zero. -/
theorem exit_status_never_zero :
    ∀ (ext : Ext) (a : Args) (fs : FS), exitCode (workflow ext a fs) ≠ 0 := by
  intro ext a fs
  cases hp : preMerge ext a fs with
  | error e =>
      rw [workflow_of_preMerge_error ext a fs e hp]
      exact Nat.one_ne_zero
  | ok fs2 =>
      rw [workflow_of_preMerge_ok ext a fs fs2 hp]
      exact Nat.one_ne_zero

/-- C3 (code bug): the `--delim` option is never passed to the split
function (nor used anywhere else in the command body), so the entire run
— in particular the set of partition files produced by the split step —
is identical for any two delimiter values: partitioning cannot follow the
configured delimiter. -/
theorem workflow_ignores_delim :
    ∀ (ext : Ext) (a : Args) (fs : FS) (d1 d2 : String),
      splitStep ext { a with delim := d1 } fs = splitStep ext { a with delim := d2 } fs ∧
      workflow ext { a with delim := d1 } fs = workflow ext { a with delim := d2 } fs := by
  intro ext a fs d1 d2
  cases a
  exact ⟨rfl, rfl⟩

/-- C4 (code bug): the `params` dict handed to the `ParallelDeblur`
runner holds exactly the keys `ref_db_fp`, `ref_fp` and `jobs_to_start`;
none of the error model, trim length, indel model, abundance threshold or
negate flag is in it, and it is one shared dict, the same whatever the
partition set is. -/
theorem runner_params_keys :
    ∀ (a : Args) (fs1 fs1' : FS),
      (runnerCallOf a fs1).params.map Prod.fst
          = ["ref_db_fp", "ref_fp", "jobs_to_start"] ∧
      (runnerCallOf a fs1).params = (runnerCallOf a fs1').params ∧
      "read_error" ∉ (runnerCallOf a fs1).params.map Prod.fst ∧
      "mean_error" ∉ (runnerCallOf a fs1).params.map Prod.fst ∧
      "error_dist" ∉ (runnerCallOf a fs1).params.map Prod.fst ∧
      "trim_length" ∉ (runnerCallOf a fs1).params.map Prod.fst ∧
      "indel_prob" ∉ (runnerCallOf a fs1).params.map Prod.fst ∧
      "indel_max" ∉ (runnerCallOf a fs1).params.map Prod.fst ∧
      "min_size" ∉ (runnerCallOf a fs1).params.map Prod.fst ∧
      "negate" ∉ (runnerCallOf a fs1).params.map Prod.fst := by
  intro a fs1 fs1'
  refine ⟨rfl, rfl, ?_, ?_, ?_, ?_, ?_, ?_, ?_, ?_⟩ <;>
    simp [runnerCallOf, buildParams]

/-- C5: when the split directory already exists (as a directory) and is
non-empty, the partition step performs no work at all: it returns the
filesystem unchanged, so the directory's content is untouched (no
re-split). -/
theorem split_not_rerun_when_nonempty :
    ∀ (ext : Ext) (a : Args) (fs : FS),
      fs.isDir (out_dir_split a) = true →
      fs.entriesIn (out_dir_split a) ≠ [] →
      splitStep ext a fs = Except.ok fs :=
  fun ext a fs hd _ => splitStep_skipped_of_isDir ext a fs hd

/-- Witness for C5: a concrete pre-existing non-empty split directory is
left untouched. -/
theorem split_not_rerun_when_nonempty_witness :
    splitStep exampleExt exampleArgs exampleFS = Except.ok exampleFS :=
  split_not_rerun_when_nonempty exampleExt exampleArgs exampleFS (by rfl) (by decide)

/-- C10: the split directory is the fixed path
`join(dirname(output_fp), "split")`, and the split step is skipped as
soon as that directory exists — also when it is empty, in which case the
run sees no partition files at all (`glob` of the split directory is
empty): the guard checks existence only, never non-emptiness. -/
theorem split_guard_checks_existence_only :
    ∀ (ext : Ext) (a : Args) (fs : FS),
      out_dir_split a = a.output_fp.dropLast ++ ["split"] ∧
      (fs.isDir (out_dir_split a) = true →
        splitStep ext a fs = Except.ok fs ∧
        (fs.entriesIn (out_dir_split a) = [] →
          globStar fs (out_dir_split a) = [])) := by
  intro ext a fs
  refine ⟨rfl, fun hd => ⟨splitStep_skipped_of_isDir ext a fs hd, fun he => ?_⟩⟩
  unfold globStar
  rw [he]
  rfl

/-- Witness for C10: with an existing but empty split directory the split
is skipped and no partition files are seen. -/
theorem split_guard_checks_existence_only_witness :
    splitStep exampleExt exampleArgs emptySplitFS = Except.ok emptySplitFS ∧
    globStar emptySplitFS (out_dir_split exampleArgs) = [] := by
  have h := (split_guard_checks_existence_only exampleExt exampleArgs emptySplitFS).2 (by rfl)
  exact ⟨h.1, h.2 (by rfl)⟩

/-- Unfolding `runningCount` over a cons cell. -/
theorem runningCount_cons (a : JState) (t : List JState) :
    runningCount (a :: t)
      = runningCount t + (if a == JState.running then 1 else 0) := by
  simp [runningCount, List.countP_cons]

/-- Replacing the entry at `i` trades its contribution to the Running
count for the new entry's contribution. -/
theorem runningCount_set (js : List JState) (i : Nat) (x y : JState)
    (h : js.get? i = some x) :
    runningCount (js.set i y) + (if x == JState.running then 1 else 0)
      = runningCount js + (if y == JState.running then 1 else 0) := by
  induction js generalizing i with
  | nil => simp at h
  | cons a t ih =>
    cases i with
    | zero =>
      simp only [List.get?_cons_zero, Option.some.injEq] at h
      subst h
      rw [List.set_cons_zero, runningCount_cons, runningCount_cons]
      omega
    | succ n =>
      simp only [List.get?_cons_succ] at h
      rw [List.set_cons_succ, runningCount_cons, runningCount_cons]
      have h2 := ih n h
      omega

/-- A freshly submitted pool has nothing Running. -/
theorem runningCount_replicate_queued (n : Nat) :
    runningCount (List.replicate n JState.queued) = 0 := by
  induction n with
  | zero => rfl
  | succ k ih => rw [List.replicate_succ, runningCount_cons, ih]; rfl

/-- Invariant: along any dispatcher run from an all-Queued pool, the
Running count never exceeds the capacity. -/
theorem runningCount_le_of_reach (cap n : Nat) (js : List JState)
    (h : Reach cap (List.replicate n JState.queued) js) :
    runningCount js ≤ cap := by
  induction h with
  | refl => rw [runningCount_replicate_queued]; exact Nat.zero_le cap
  | tail a b _ hstep ih =>
    cases hstep with
    | start i hq hc =>
        have h2 := runningCount_set a i JState.queued JState.running hq
        rw [show (JState.queued == JState.running) = false from rfl,
            show (JState.running == JState.running) = true from rfl] at h2
        simp at h2
        omega
    | finishOk i hr =>
        have h2 := runningCount_set a i JState.running JState.succeeded hr
        rw [show (JState.running == JState.running) = true from rfl,
            show (JState.succeeded == JState.running) = false from rfl] at h2
        simp at h2
        omega
    | finishBad i hr =>
        have h2 := runningCount_set a i JState.running JState.failed hr
        rw [show (JState.running == JState.running) = true from rfl,
            show (JState.failed == JState.running) = false from rfl] at h2
        simp at h2
        omega

/-- C6 (spec-modelled Dispatcher): at every observed instant of a run the
number of jobs in the Running state never exceeds `jobs_to_start`, for
every positive `jobs_to_start`. -/
theorem dispatcher_never_exceeds_cap :
    ∀ (cap n : Nat) (js : List JState),
      0 < cap →
      Reach cap (List.replicate n JState.queued) js →
      runningCount js ≤ cap :=
  fun cap n js _ h => runningCount_le_of_reach cap n js h

/-- Witness for C6: with capacity 2 and three jobs, the run start, start,
finish, start reaches a state whose Running count respects the bound. -/
theorem dispatcher_never_exceeds_cap_witness :
    runningCount [JState.succeeded, JState.running, JState.running] ≤ 2 :=
  dispatcher_never_exceeds_cap 2 3
    [JState.succeeded, JState.running, JState.running]
    (by decide)
    (Reach.tail [JState.succeeded, JState.running, JState.queued]
        [JState.succeeded, JState.running, JState.running]
      (Reach.tail [JState.running, JState.running, JState.queued]
          [JState.succeeded, JState.running, JState.queued]
        (Reach.tail [JState.running, JState.queued, JState.queued]
            [JState.running, JState.running, JState.queued]
          (Reach.tail (List.replicate 3 JState.queued)
              [JState.running, JState.queued, JState.queued]
            Reach.refl
            (DStep.start (List.replicate 3 JState.queued) 0 rfl (by decide)))
          (DStep.start [JState.running, JState.queued, JState.queued] 1 rfl (by decide)))
        (DStep.finishOk [JState.running, JState.running, JState.queued] 0 rfl))
      (DStep.start [JState.succeeded, JState.running, JState.queued] 2 rfl (by decide)))

/-- The content of a two-table merge is the cellwise sum of the inputs'
contents. -/
theorem content_merge (A B : Artifact) (f s : String) :
    (mergeTables A B).content f s = A.content f s + B.content f s := by
  simp [mergeTables, Artifact.content, List.filter_append]

/-- C7 (spec-modelled Merger): the merge step's input set is exactly the
entries found directly under the output directory whose name ends in
`.biom` (the `glob('%s/*.biom' % out_dir)` of line 142), and the merged
result's feature list and sample list cover exactly the union of the
input artifacts' features and samples. -/
theorem merge_scans_bioms_and_unions :
    (∀ (fs : FS) (d p : Path),
      p ∈ globBiom fs d ↔
        ((p ∈ fs.files.map Prod.fst ∨ p ∈ fs.dirs) ∧ p ≠ [] ∧ p.dropLast = d ∧
         (base p).startsWith "." = false ∧ (base p).endsWith ".biom" = true)) ∧
    (∀ (ts : List Artifact) (f : String),
      f ∈ (mergeAll ts).featureList ↔ ∃ t ∈ ts, f ∈ t.featureList) ∧
    (∀ (ts : List Artifact) (s : String),
      s ∈ (mergeAll ts).sampleList ↔ ∃ t ∈ ts, s ∈ t.sampleList) := by
  refine ⟨fun fs d p => ?_, fun ts f => ?_, fun ts s => ?_⟩
  · rw [globBiom, FS.entriesIn]
    constructor
    · intro hp
      have h1 := (List.mem_filter.mp hp).2
      have h2 := List.mem_filter.mp (List.mem_filter.mp hp).1
      have hmem := List.mem_append.mp h2.1
      have hc2 := h2.2
      rw [Bool.and_eq_true] at h1 hc2
      rw [Bool.not_eq_true'] at h1 hc2
      refine ⟨hmem, ?_, beq_iff_eq.mp hc2.2, h1.1, h1.2⟩
      intro hnil
      rw [hnil] at hc2
      simp at hc2
    · rintro ⟨hmem, hnil, hdrop, hsw, hew⟩
      refine List.mem_filter.mpr ⟨List.mem_filter.mpr ⟨List.mem_append.mpr hmem, ?_⟩, ?_⟩
      · rw [Bool.and_eq_true, Bool.not_eq_true']
        refine ⟨?_, beq_iff_eq.mpr hdrop⟩
        rw [List.isEmpty_eq_false]
        exact hnil
      · rw [Bool.and_eq_true, Bool.not_eq_true']
        exact ⟨hsw, hew⟩
  · simp only [mergeAll, Artifact.featureList, List.mem_map, List.mem_flatten]
    constructor
    · rintro ⟨r, ⟨rows, ⟨t, ht, hteq⟩, hr⟩, hf⟩
      exact ⟨t, ht, r, by rw [hteq]; exact hr, hf⟩
    · rintro ⟨t, ht, r, hr, hf⟩
      exact ⟨r, ⟨t.rows, ⟨t, ht, rfl⟩, hr⟩, hf⟩
  · simp only [mergeAll, Artifact.sampleList, List.mem_map, List.mem_flatten]
    constructor
    · rintro ⟨r, ⟨rows, ⟨t, ht, hteq⟩, hr⟩, hs⟩
      exact ⟨t, ht, r, by rw [hteq]; exact hr, hs⟩
    · rintro ⟨t, ht, r, hr, hs⟩
      exact ⟨r, ⟨t.rows, ⟨t, ht, rfl⟩, hr⟩, hs⟩

/-- C8 (spec-modelled Merger): for artifacts with pairwise disjoint
sample columns the merge is commutative and associative in the resulting
table's content. -/
theorem merge_comm_assoc :
    ∀ (A B C : Artifact),
      disjointSamples A B → disjointSamples B C → disjointSamples A C →
      (∀ f s, (mergeTables A B).content f s = (mergeTables B A).content f s) ∧
      (∀ f s, (mergeTables (mergeTables A B) C).content f s
        = (mergeTables A (mergeTables B C)).content f s) := by
  intro A B C _ _ _
  constructor
  · intro f s
    rw [content_merge, content_merge]
    exact Int.add_comm _ _
  · intro f s
    rw [content_merge, content_merge, content_merge, content_merge]
    exact Int.add_assoc _ _ _

/-- Witness for C8: concrete single-sample artifacts with disjoint sample
columns merge the same way in either order and grouping. -/
theorem merge_comm_assoc_witness :
    (mergeTables ⟨[("f1", "s1", 3)]⟩ ⟨[("f2", "s2", 4)]⟩).content "f1" "s1"
      = (mergeTables ⟨[("f2", "s2", 4)]⟩ ⟨[("f1", "s1", 3)]⟩).content "f1" "s1" ∧
    (mergeTables (mergeTables ⟨[("f1", "s1", 3)]⟩ ⟨[("f2", "s2", 4)]⟩)
        ⟨[("f1", "s3", 5)]⟩).content "f1" "s3"
      = (mergeTables ⟨[("f1", "s1", 3)]⟩ (mergeTables ⟨[("f2", "s2", 4)]⟩
        ⟨[("f1", "s3", 5)]⟩)).content "f1" "s3" := by
  have h := merge_comm_assoc ⟨[("f1", "s1", 3)]⟩ ⟨[("f2", "s2", 4)]⟩
    ⟨[("f1", "s3", 5)]⟩ (by decide) (by decide) (by decide)
  exact ⟨h.1 "f1" "s1", h.2 "f1" "s3"⟩

end ParallelDeblurScript
